import Mathlib

/-!
Shallow embedding of the investment-planning repository's model-formulation
and solution-extraction layer (src/models/bank_loan.py,
src/models/production_inventory.py, src/models/oil_refining.py,
src/utils/validation.py).

Conventions of the embedding:
* Python floats become rationals (ℚ); the numeric literals of the source are
  exact decimal fractions, so nothing is lost.
* A PuLP constraint `lhs {<=,>=,==} rhs` becomes a `Constraint`: a list of
  (coefficient, variable) terms, a comparison operator, a right-hand side
  and its label string.
* Python list indexing `lst[i]` that can raise IndexError is modelled with
  `List.get?`; a function that can raise returns `Option _` and `none`
  stands for the raised exception.
* Python's `arg or default` idiom on list/dict parameters (both `None` and
  an empty collection are falsy) is `listOrDefault`, applied to an
  `Option (List _)` argument where `none` is an omitted argument.
-/

/-- Comparison operator of a linear constraint (`<=`, `>=`, `==`). -/
inductive CmpOp where
  | le
  | ge
  | eq
deriving DecidableEq

/-- Applying `op.sat a b` gives the proposition compared by the operator: `a ≤ b`,
`a ≥ b` or `a = b`. -/
def CmpOp.sat : CmpOp → ℚ → ℚ → Prop
  | CmpOp.le, a, b => a ≤ b
  | CmpOp.ge, a, b => b ≤ a
  | CmpOp.eq, a, b => a = b

instance decCmpOpSat (op : CmpOp) (a b : ℚ) : Decidable (op.sat a b) :=
  match op with
  | CmpOp.le => inferInstanceAs (Decidable (a ≤ b))
  | CmpOp.ge => inferInstanceAs (Decidable (b ≤ a))
  | CmpOp.eq => inferInstanceAs (Decidable (a = b))

/-- One linear constraint of a model: terms, operator, right-hand side, label. -/
structure Constraint (V : Type) where
  terms : List (ℚ × V)
  op : CmpOp
  rhs : ℚ
  label : String
deriving DecidableEq

/-- Value of a linear expression (a term list) at a variable assignment. -/
def evalTerms {V : Type} (v : V → ℚ) (terms : List (ℚ × V)) : ℚ :=
  (terms.map (fun p => p.1 * v p.2)).sum

/-- The constraint is satisfied at the assignment. -/
def Constraint.holds {V : Type} (c : Constraint V) (v : V → ℚ) : Prop :=
  c.op.sat (evalTerms v c.terms) c.rhs

instance decConstraintHolds {V : Type} (c : Constraint V) (v : V → ℚ) :
    Decidable (c.holds v) :=
  inferInstanceAs (Decidable (c.op.sat (evalTerms v c.terms) c.rhs))

/-- A constraint with no terms; only used as the default of `List.getD`. -/
def emptyConstraint {V : Type} : Constraint V :=
  { terms := [], op := CmpOp.eq, rhs := 0, label := "" }

/-- A Python list comprehension whose body may raise: maps `f` over the
list, `none` (the first raised exception) aborting the whole result. -/
def optionMap {α β : Type} (f : α → Option β) : List α → Option (List β)
  | [] => some []
  | a :: as =>
    match f a with
    | none => none
    | some b =>
      match optionMap f as with
      | none => none
      | some bs => some (b :: bs)

/-- Python's `argument or default` on a collection parameter: `None` (here
`none`) and the empty collection are both falsy and give the default. -/
def listOrDefault {α : Type} (arg : Option (List α)) (dflt : List α) : List α :=
  match arg with
  | none => dflt
  | some l => if l.isEmpty then dflt else l

/-- Embeds `validation.validate_equal_length`: lengths of all given lists must
agree; the empty argument tuple is valid.  (The source formats the offending
lengths into the message; the embedding keeps a fixed message.) -/
def validate_equal_length {α : Type} (lists : List (List α)) : Bool × String :=
  if lists.isEmpty then (true, "")
  else if (lists.map List.length).dedup.length = 1 then (true, "")
  else (false, "All lists must have equal length")

/-- Embeds `validation.calculate_constraint_violations`: returns
(is_satisfied, violation_amount); `none` models the `ValueError` raised on
an unknown constraint type. -/
def calculate_constraint_violations (actual_value required_value : ℚ)
    (constraint_type : String) (tolerance : ℚ) : Option (Bool × ℚ) :=
  if constraint_type = "<=" then
    some (decide (actual_value ≤ required_value + tolerance),
      max 0 (actual_value - required_value))
  else if constraint_type = ">=" then
    some (decide (required_value - tolerance ≤ actual_value),
      max 0 (required_value - actual_value))
  else if constraint_type = "==" then
    some (decide (|actual_value - required_value| ≤ tolerance),
      |actual_value - required_value|)
  else
    none

/-! ## Bank loan portfolio (src/models/bank_loan.py)

Decision variables are indexed by their position in `loan_types`
(the source names them `x_{loan_type}`; positions and names are in
bijection). -/

/-- The stored attributes of a `BankLoanOptimizer`. -/
structure BankLoanState where
  total_funds : ℚ
  interest_rates : List ℚ
  bad_debt_ratios : List ℚ
  loan_types : List String
deriving DecidableEq

/-- Embeds `BankLoanOptimizer.__init__`: stores the parameters, substituting the
textbook defaults for `None` or empty lists (`x or default`). -/
def BankLoanOptimizer.init (total_funds : ℚ) (interest_rates : Option (List ℚ))
    (bad_debt_ratios : Option (List ℚ)) (loan_types : Option (List String)) :
    BankLoanState :=
  { total_funds := total_funds
    interest_rates := listOrDefault interest_rates [0.14, 0.13, 0.12, 0.125, 0.10]
    bad_debt_ratios := listOrDefault bad_debt_ratios [0.10, 0.07, 0.03, 0.05, 0.02]
    loan_types := listOrDefault loan_types
      ["Personal", "Car", "Home", "Farm", "Commercial"] }

/-- Embeds `BankLoanOptimizer._calculate_net_returns`: for each loan type index,
`interest_rate * (1 - bad_debt) - bad_debt`; `none` models the IndexError
raised when a rate list is shorter than `loan_types`. -/
def BankLoanOptimizer.calculate_net_returns (s : BankLoanState) : Option (List ℚ) :=
  optionMap (fun i =>
    match s.interest_rates.get? i, s.bad_debt_ratios.get? i with
    | some rate, some bad => some (rate * (1 - bad) - bad)
    | _, _ => none) (List.range s.loan_types.length)

/-- Indexing `self.variables[i]` of the bank loan model: `none` models the IndexError
on an out-of-range index (the source indexes positions 0..4 regardless of
how many loan types were configured). -/
def bankVar (n i : Nat) : Option Nat :=
  if i < n then some i else none

/-- The variable list of the bank loan model with each variable's lower
bound (`LpVariable(..., lowBound=0)`). -/
def BankLoanOptimizer.variables (s : BankLoanState) : List (Nat × ℚ) :=
  (List.range s.loan_types.length).map (fun i => (i, 0))

/-- Embeds `BankLoanOptimizer.build_model`: the constraint list of the model, in
the order the source adds them.  The objective's net-return coefficients are
computed first (the source builds the objective before the constraints), so
an IndexError there aborts the build; constraints 3 and 4 index variables
0..4 unconditionally. -/
def BankLoanOptimizer.build_model (s : BankLoanState) :
    Option (List (Constraint Nat)) :=
  match BankLoanOptimizer.calculate_net_returns s with
  | none => none
  | some _net_returns =>
    let n := s.loan_types.length
    let c1 : Constraint Nat :=
      { terms := (List.range n).map (fun i => ((1 : ℚ), i)), op := CmpOp.le
        rhs := s.total_funds, label := "Total_Funds_Constraint" }
    let c2 : Constraint Nat :=
      { terms := (List.range n).map (fun i => ((1 : ℚ), i)), op := CmpOp.ge
        rhs := 0, label := "Minimum_Allocation" }
    match bankVar n 0, bankVar n 1, bankVar n 2, bankVar n 3, bankVar n 4 with
    | some v0, some v1, some v2, some v3, some v4 =>
      let c3 : Constraint Nat :=
        { terms := [(0.4, v0), (0.4, v1), (0.4, v2), (-0.6, v3), (-0.6, v4)]
          op := CmpOp.le, rhs := 0, label := "Farm_Commercial_Minimum" }
      let c4 : Constraint Nat :=
        { terms := [(0.5, v0), (0.5, v1), (-0.5, v2)]
          op := CmpOp.le, rhs := 0, label := "Home_Loan_Minimum" }
      match optionMap (fun i =>
          match s.bad_debt_ratios.get? i with
          | some bad => some ((bad - 0.04 : ℚ), i)
          | none => none) (List.range n) with
      | some c5terms =>
        some [c1, c2, c3, c4,
          { terms := c5terms, op := CmpOp.le, rhs := 0, label := "Bad_Debt_Limit" }]
      | none => none
    | _, _, _, _, _ => none

/-- The objective's term list (net return coefficient on each variable). -/
def BankLoanOptimizer.objective (s : BankLoanState) : Option (List (ℚ × Nat)) :=
  match BankLoanOptimizer.calculate_net_returns s with
  | none => none
  | some nr => some (nr.enum.map (fun p => (p.2, p.1)))

/-- The solution dictionary `BankLoanOptimizer.solve` returns; `none` fields
embed keys that are absent or `None` in the non-optimal branch. -/
structure BankLoanSolution where
  status : String
  allocations : Option (List ℚ)
  total_allocated : Option ℚ
  net_return : Option ℚ
  roi_percentage : Option ℚ
  error : Option String
deriving DecidableEq

/-- The solution-extraction tail of `BankLoanOptimizer.solve`: the engine's
reported status, the extracted variable values and the engine's objective
value are its inputs.  The source performs no constraint re-checking here;
`roi` divides only under the guard `total_allocated > 0`. -/
def BankLoanOptimizer.solve_extract (status : String) (vals : List ℚ)
    (objective_value : ℚ) : BankLoanSolution :=
  if status = "Optimal" then
    let total_allocated := vals.sum
    let roi := if 0 < total_allocated then objective_value / total_allocated else 0
    { status := status, allocations := some vals
      total_allocated := some total_allocated, net_return := some objective_value
      roi_percentage := some (roi * 100), error := none }
  else
    { status := status, allocations := none, total_allocated := none
      net_return := none, roi_percentage := none
      error := some "Optimization failed to find optimal solution" }

/-- The default-parameter optimizer state. -/
def bankDefaultState : BankLoanState :=
  BankLoanOptimizer.init 12000000 none none none

/-! ## Multi-period production/inventory (src/models/production_inventory.py) -/

/-- Decision variables: `produce t` is the source's `x_{t+1}` (production of
period `t+1`), `inventory t` its `I_{t+1}` (ending inventory). -/
inductive PIVar where
  | produce (t : Nat)
  | inventory (t : Nat)
deriving DecidableEq

/-- The stored attributes of a `ProductionInventoryOptimizer`. -/
structure ProductionInventoryState where
  production_costs : List ℚ
  storage_cost : ℚ
  demands : List ℚ
  num_periods : Nat
deriving DecidableEq

/-- Embeds `ProductionInventoryOptimizer.__init__`: defaults via `x or default`;
`num_periods` is the length of the stored demand list. -/
def ProductionInventoryOptimizer.init (production_costs : Option (List ℚ))
    (storage_cost : ℚ) (demands : Option (List ℚ)) : ProductionInventoryState :=
  let pc := listOrDefault production_costs [50, 45, 55, 48, 52, 50]
  let d := listOrDefault demands [100, 250, 190, 140, 220, 110]
  { production_costs := pc, storage_cost := storage_cost, demands := d
    num_periods := d.length }

/-- The production variables with their lower bounds (`lowBound=0`). -/
def ProductionInventoryOptimizer.production_vars (s : ProductionInventoryState) :
    List (PIVar × ℚ) :=
  (List.range s.num_periods).map (fun t => (PIVar.produce t, 0))

/-- The inventory variables with their lower bounds (`lowBound=0`). -/
def ProductionInventoryOptimizer.inventory_vars (s : ProductionInventoryState) :
    List (PIVar × ℚ) :=
  (List.range s.num_periods).map (fun t => (PIVar.inventory t, 0))

/-- The source's `for i in range(1, num_periods)` loop adding one balance
constraint per period: `count` iterations remain, `i` is the current loop
index.  `none` models an IndexError on `demands[i]`. -/
def balanceLoop (demands : List ℚ) : Nat → Nat → Option (List (Constraint PIVar))
  | 0, _ => some []
  | Nat.succ count, i =>
    match demands.get? i with
    | none => none
    | some dt =>
      match balanceLoop demands count (i + 1) with
      | none => none
      | some rest =>
        some ({ terms := [(1, PIVar.inventory (i - 1)), (1, PIVar.produce i),
                  (-1, PIVar.inventory i)]
                op := CmpOp.eq, rhs := dt
                label := "Period_" ++ toString (i + 1) ++ "_Balance" } :: rest)

/-- The balance-constraint part of `ProductionInventoryOptimizer.build_model`:
the period-1 constraint (implicit beginning inventory of zero) followed by
the loop over periods 2..n; `none` models the IndexError on `demands[0]`
when the demand list is empty. -/
def ProductionInventoryOptimizer.balance_constraints (s : ProductionInventoryState) :
    Option (List (Constraint PIVar)) :=
  match s.demands.get? 0 with
  | none => none
  | some d0 =>
    match balanceLoop s.demands (s.num_periods - 1) 1 with
    | none => none
    | some rest =>
      some ({ terms := [(1, PIVar.produce 0), (-1, PIVar.inventory 0)]
              op := CmpOp.eq, rhs := d0, label := "Period_1_Balance" } :: rest)

/-- The solution dictionary `ProductionInventoryOptimizer.solve` returns. -/
structure ProductionInventorySolution where
  status : String
  production_schedule : Option (List ℚ)
  inventory_schedule : Option (List ℚ)
  total_cost : Option ℚ
  production_cost : Option ℚ
  storage_cost : Option ℚ
  error : Option String
deriving DecidableEq

/-- The solution-extraction tail of `ProductionInventoryOptimizer.solve`:
takes the engine status, the extracted schedules and the engine's objective
value.  (The extracted schedules have length `num_periods` by construction,
and `production_costs` has at least `num_periods` entries whenever the model
was built, so the `getD` indexing below coincides with the source's
`lst[i]`.) -/
def ProductionInventoryOptimizer.solve_extract (s : ProductionInventoryState)
    (status : String) (pvals ivals : List ℚ) (objective_value : ℚ) :
    ProductionInventorySolution :=
  if status = "Optimal" then
    let production_cost :=
      ((List.range s.num_periods).map
        (fun i => s.production_costs.getD i 0 * pvals.getD i 0)).sum
    let storage_cost :=
      ((List.range s.num_periods).map (fun i => s.storage_cost * ivals.getD i 0)).sum
    { status := status, production_schedule := some pvals
      inventory_schedule := some ivals, total_cost := some objective_value
      production_cost := some production_cost, storage_cost := some storage_cost
      error := none }
  else
    { status := status, production_schedule := none, inventory_schedule := none
      total_cost := none, production_cost := none, storage_cost := none
      error := some "Optimization failed to find optimal solution" }

/-! ## Oil refining and blending (src/models/oil_refining.py) -/

/-- Decision variables: one per (source, product) pair; `feed p` is the
source's `x_feed_{p}`, `crack p` its `x_crack_{p}`. -/
inductive OilVar where
  | feed (product : String)
  | crack (product : String)
deriving DecidableEq

/-- The stored attributes of an `OilRefiningOptimizer`; the three dicts are
association lists (first match wins, as for unique-keyed Python dicts). -/
structure OilRefiningState where
  crude_capacity : ℚ
  cracker_capacity : ℚ
  octane_numbers : List (String × ℚ)
  demand_limits : List (String × ℚ)
  profit_margins : List (String × ℚ)
deriving DecidableEq

/-- Python dict lookup `d[k]`: `none` models the KeyError. -/
def dictGet (d : List (String × ℚ)) (k : String) : Option ℚ :=
  (d.find? (fun p => p.1 == k)).map Prod.snd

/-- Embeds `OilRefiningOptimizer.__init__`: defaults via `x or default` (an empty
dict is falsy like `None`). -/
def OilRefiningOptimizer.init (crude_capacity cracker_capacity : ℚ)
    (octane_numbers demand_limits profit_margins : Option (List (String × ℚ))) :
    OilRefiningState :=
  { crude_capacity := crude_capacity
    cracker_capacity := cracker_capacity
    octane_numbers := listOrDefault octane_numbers
      [("feedstock", 82), ("cracker", 98), ("regular", 87), ("premium", 89),
       ("super", 92)]
    demand_limits := listOrDefault demand_limits
      [("regular", 50000), ("premium", 30000), ("super", 40000)]
    profit_margins := listOrDefault profit_margins
      [("regular", 6.70), ("premium", 7.20), ("super", 8.10)] }

/-- The product list the source iterates over. -/
def oilProducts : List String := ["regular", "premium", "super"]

/-- The variable list of the oil model with lower bounds (`lowBound=0`). -/
def OilRefiningOptimizer.variables : List (OilVar × ℚ) :=
  oilProducts.map (fun p => (OilVar.feed p, 0)) ++
    oilProducts.map (fun p => (OilVar.crack p, 0))

/-- Embeds `OilRefiningOptimizer.build_model`: constraints in source order — crude
capacity, cracker capacity, three demand limits (dict lookups that may
KeyError), then the three octane constraints whose coefficients the source
hardcodes as -5/11, -7/9 and -10/6 (derived by hand from the DEFAULT octane
numbers 82/98 against 87/89/92; `self.octane_numbers` is never read here).
The objective's profit lookups happen first, as in the source. -/
def OilRefiningOptimizer.build_model (s : OilRefiningState) :
    Option (List (Constraint OilVar)) :=
  match optionMap (fun p => dictGet s.profit_margins p) oilProducts with
  | none => none
  | some _profits =>
    let c1 : Constraint OilVar :=
      { terms := oilProducts.map (fun p => ((5 : ℚ), OilVar.feed p)) ++
          oilProducts.map (fun p => ((10 : ℚ), OilVar.crack p))
        op := CmpOp.le, rhs := s.crude_capacity, label := "Crude_Capacity" }
    let c2 : Constraint OilVar :=
      { terms := oilProducts.map (fun p => ((2 : ℚ), OilVar.crack p))
        op := CmpOp.le, rhs := s.cracker_capacity, label := "Cracker_Capacity" }
    match optionMap (fun p =>
        match dictGet s.demand_limits p with
        | some lim =>
          some { terms := [((1 : ℚ), OilVar.feed p), ((1 : ℚ), OilVar.crack p)]
                 op := CmpOp.le, rhs := lim, label := "Demand_" ++ p }
        | none => none) oilProducts with
    | none => none
    | some demandCons =>
      let octane_regular : Constraint OilVar :=
        { terms := [(-5, OilVar.feed "regular"), (11, OilVar.crack "regular")]
          op := CmpOp.ge, rhs := 0, label := "Octane_Regular" }
      let octane_premium : Constraint OilVar :=
        { terms := [(-7, OilVar.feed "premium"), (9, OilVar.crack "premium")]
          op := CmpOp.ge, rhs := 0, label := "Octane_Premium" }
      let octane_super : Constraint OilVar :=
        { terms := [(-10, OilVar.feed "super"), (6, OilVar.crack "super")]
          op := CmpOp.ge, rhs := 0, label := "Octane_Super" }
      some ([c1, c2] ++ demandCons ++ [octane_regular, octane_premium, octane_super])

/-- The solution dictionary `OilRefiningOptimizer.solve` returns; each
production entry is (product, feedstock amount, cracker amount, total). -/
structure OilRefiningSolution where
  status : String
  production : Option (List (String × ℚ × ℚ × ℚ))
  total_profit : Option ℚ
  daily_profit : Option ℚ
  error : Option String
deriving DecidableEq

/-- The solution-extraction tail of `OilRefiningOptimizer.solve`: takes the
engine status, the extracted per-product feedstock and cracker values, and
the engine's objective value. -/
def OilRefiningOptimizer.solve_extract (status : String) (fvals cvals : String → ℚ)
    (objective_value : ℚ) : OilRefiningSolution :=
  if status = "Optimal" then
    { status := status
      production := some (oilProducts.map (fun p => (p, fvals p, cvals p, fvals p + cvals p)))
      total_profit := some objective_value, daily_profit := some objective_value
      error := none }
  else
    { status := status, production := none, total_profit := none
      daily_profit := none
      error := some "Optimization failed to find optimal solution" }

/-! ## Theorems about the claims -/

/-- C10: each of the three constructors treats a passed empty list (for
`OilRefiningOptimizer`, an empty dict) for any defaulted collection
parameter exactly like an omitted argument — the stored parameters equal the
textbook defaults (e.g. `ProductionInventoryOptimizer` built with
`demands = []` stores the 6-period default schedule and `num_periods = 6`),
and construction is a total function, so no error is raised. -/
theorem C10_empty_collections_use_defaults :
    (∀ tf : ℚ, BankLoanOptimizer.init tf (some []) (some []) (some []) =
      BankLoanOptimizer.init tf none none none) ∧
    (∀ sc : ℚ, ProductionInventoryOptimizer.init (some []) sc (some []) =
      ProductionInventoryOptimizer.init none sc none) ∧
    (∀ cc kc : ℚ, OilRefiningOptimizer.init cc kc (some []) (some []) (some []) =
      OilRefiningOptimizer.init cc kc none none none) ∧
    (ProductionInventoryOptimizer.init (some []) 8 (some [])).demands =
      [100, 250, 190, 140, 220, 110] ∧
    (ProductionInventoryOptimizer.init (some []) 8 (some [])).num_periods = 6 ∧
    (ProductionInventoryOptimizer.init (some []) 8 (some [])).production_costs =
      [50, 45, 55, 48, 52, 50] ∧
    (BankLoanOptimizer.init 12000000 (some []) (some []) (some [])).interest_rates =
      [0.14, 0.13, 0.12, 0.125, 0.10] ∧
    (BankLoanOptimizer.init 12000000 (some []) (some []) (some [])).bad_debt_ratios =
      [0.10, 0.07, 0.03, 0.05, 0.02] ∧
    (BankLoanOptimizer.init 12000000 (some []) (some []) (some [])).loan_types =
      ["Personal", "Car", "Home", "Farm", "Commercial"] ∧
    (OilRefiningOptimizer.init 1500000 200000 (some []) (some []) (some [])).octane_numbers =
      [("feedstock", 82), ("cracker", 98), ("regular", 87), ("premium", 89),
       ("super", 92)] :=
  ⟨fun _ => rfl, fun _ => rfl, fun _ _ => rfl, rfl, rfl, rfl, rfl, rfl, rfl, rfl⟩

/-- C9: for each of the three constraint types and every actual value,
required value and nonnegative tolerance, `calculate_constraint_violations`
returns a pair (satisfied, violation) with satisfied true exactly when the
violation is at most the tolerance. -/
theorem C9_satisfied_iff_within_tolerance (a r tol : ℚ) (ct : String)
    (htol : 0 ≤ tol) (hct : ct = "<=" ∨ ct = ">=" ∨ ct = "==") :
    ∃ sat viol, calculate_constraint_violations a r ct tol = some (sat, viol) ∧
      (sat = true ↔ viol ≤ tol) := by
  rcases hct with h | h | h <;> subst h
  · unfold calculate_constraint_violations
    rw [if_pos rfl]
    refine ⟨_, _, rfl, ?_⟩
    simp only [decide_eq_true_eq, max_le_iff]
    constructor
    · intro hle
      exact ⟨htol, by linarith⟩
    · intro hv
      linarith [hv.2]
  · unfold calculate_constraint_violations
    rw [if_neg (by decide), if_pos rfl]
    refine ⟨_, _, rfl, ?_⟩
    simp only [decide_eq_true_eq, max_le_iff]
    constructor
    · intro hle
      exact ⟨htol, by linarith⟩
    · intro hv
      linarith [hv.2]
  · unfold calculate_constraint_violations
    rw [if_neg (by decide), if_neg (by decide), if_pos rfl]
    refine ⟨_, _, rfl, ?_⟩
    simp only [decide_eq_true_eq]

/-- Witness for C9 at the concrete input a = 1, r = 0, type "<=", tol = 0. -/
theorem C9_witness :
    ∃ sat viol, calculate_constraint_violations 1 0 "<=" 0 = some (sat, viol) ∧
      (sat = true ↔ viol ≤ 0) :=
  C9_satisfied_iff_within_tolerance 1 0 0 "<=" le_rfl (Or.inl rfl)

/-- C7: whenever the engine reports a status other than Optimal, every
optimizer's solve returns (does not raise) a result carrying that status
verbatim with every numeric field absent; the numeric fields are populated
exactly when the status is Optimal. -/
theorem C7_status_branching (status : String) (h : status ≠ "Optimal")
    (s : ProductionInventoryState) (vals pvals ivals : List ℚ)
    (fvals cvals : String → ℚ) (obj : ℚ) :
    BankLoanOptimizer.solve_extract status vals obj =
      { status := status, allocations := none, total_allocated := none
        net_return := none, roi_percentage := none
        error := some "Optimization failed to find optimal solution" } ∧
    ProductionInventoryOptimizer.solve_extract s status pvals ivals obj =
      { status := status, production_schedule := none, inventory_schedule := none
        total_cost := none, production_cost := none, storage_cost := none
        error := some "Optimization failed to find optimal solution" } ∧
    OilRefiningOptimizer.solve_extract status fvals cvals obj =
      { status := status, production := none, total_profit := none
        daily_profit := none
        error := some "Optimization failed to find optimal solution" } ∧
    (BankLoanOptimizer.solve_extract "Optimal" vals obj).allocations = some vals ∧
    (BankLoanOptimizer.solve_extract "Optimal" vals obj).net_return = some obj ∧
    (ProductionInventoryOptimizer.solve_extract s "Optimal" pvals ivals obj).production_schedule =
      some pvals ∧
    (ProductionInventoryOptimizer.solve_extract s "Optimal" pvals ivals obj).total_cost =
      some obj ∧
    (OilRefiningOptimizer.solve_extract "Optimal" fvals cvals obj).total_profit =
      some obj := by
  refine ⟨?_, ?_, ?_, rfl, rfl, rfl, rfl, rfl⟩
  · unfold BankLoanOptimizer.solve_extract
    rw [if_neg h]
  · unfold ProductionInventoryOptimizer.solve_extract
    rw [if_neg h]
  · unfold OilRefiningOptimizer.solve_extract
    rw [if_neg h]

/-- Witness for C7 at the concrete status "Infeasible". -/
theorem C7_witness :
    (BankLoanOptimizer.solve_extract "Infeasible" [1] 0).allocations = none ∧
    (BankLoanOptimizer.solve_extract "Infeasible" [1] 0).status = "Infeasible" ∧
    (ProductionInventoryOptimizer.solve_extract
      (ProductionInventoryOptimizer.init none 8 none) "Infeasible" [] [] 0).production_schedule = none ∧
    (OilRefiningOptimizer.solve_extract "Infeasible" (fun _ => 0) (fun _ => 0) 0).production = none := by
  have h := C7_status_branching "Infeasible" (by decide)
    (ProductionInventoryOptimizer.init none 8 none) [1] [] [] (fun _ => 0) (fun _ => 0) 0
  refine ⟨?_, ?_, ?_, ?_⟩
  · rw [h.1]
  · rw [h.1]
  · rw [h.2.1]
  · rw [h.2.2.1]

/-- A `BankLoanOptimizer` constructed with interest-rate and bad-debt lists
of different lengths (2 vs 3, with the 5 default loan types). -/
def mismatchedState : BankLoanState :=
  BankLoanOptimizer.init 1000000 (some [0.15, 0.14]) (some [0.08, 0.05, 0.03]) none

/-- C6 counterexample: constructing with mismatched-length lists raises
nothing — the constructor completes and stores the mismatched lists as-is.
The utility `validate_equal_length` would report the mismatch, but the
mismatch in fact only surfaces inside `build_model` (the net-return loop
indexes past the end of `interest_rates`), i.e. during, not before, model
construction, and not as a configuration error. -/
theorem C6_counterexample :
    mismatchedState.interest_rates = [0.15, 0.14] ∧
    mismatchedState.bad_debt_ratios = [0.08, 0.05, 0.03] ∧
    mismatchedState.interest_rates.length ≠ mismatchedState.bad_debt_ratios.length ∧
    validate_equal_length [mismatchedState.interest_rates, mismatchedState.bad_debt_ratios] =
      (false, "All lists must have equal length") ∧
    BankLoanOptimizer.calculate_net_returns mismatchedState = none ∧
    BankLoanOptimizer.build_model mismatchedState = none := by
  refine ⟨rfl, rfl, by simp [mismatchedState, BankLoanOptimizer.init, listOrDefault], ?_, rfl, rfl⟩
  simp [mismatchedState, BankLoanOptimizer.init, listOrDefault, validate_equal_length,
    List.dedup_cons_of_not_mem, List.dedup_cons_of_mem]

/-- C6 amended: the constructor performs no length validation and raises no
error — a state with mismatched lists is stored as given; the mismatch only
fails later, inside `build_model` (an out-of-range index while computing
net returns, modelled as `none`), so the solver engine is indeed never
invoked on such input, but no configuration error is detected before model
construction; `validate_equal_length` detects the mismatch when called, yet
no constructor calls it. -/
theorem C6_amended (tf : ℚ) (a b c d e : ℚ) :
    (BankLoanOptimizer.init tf (some [a, b]) (some [c, d, e]) none).interest_rates =
      [a, b] ∧
    (BankLoanOptimizer.init tf (some [a, b]) (some [c, d, e]) none).bad_debt_ratios =
      [c, d, e] ∧
    validate_equal_length [[a, b], [c, d, e]] = (false, "All lists must have equal length") ∧
    BankLoanOptimizer.calculate_net_returns
      (BankLoanOptimizer.init tf (some [a, b]) (some [c, d, e]) none) = none ∧
    BankLoanOptimizer.build_model
      (BankLoanOptimizer.init tf (some [a, b]) (some [c, d, e]) none) = none := by
  refine ⟨rfl, rfl, ?_, rfl, rfl⟩
  simp [validate_equal_length, List.dedup_cons_of_not_mem, List.dedup_cons_of_mem]

/-- The spec's custom two-category portfolio (total capital 1,000,000,
rates 0.15/0.14, bad-debt 0.08/0.05). -/
def twoTypeState : BankLoanState :=
  BankLoanOptimizer.init 1000000 (some [0.15, 0.14]) (some [0.08, 0.05])
    (some ["A", "B"])

/-- C5: the net returns of the two-category portfolio are 0.058 and 0.083 as
the claim computes, and all capital flowing to the second category would
give objective 83,000 — but `build_model` hardcodes the five-category ratio
constraints (`self.variables[3]`, `self.variables[4]`), so with only two
variables it raises IndexError (modelled as `none`): `solve` can never
return an Optimal result for this configuration. -/
theorem C5_two_category_build_fails :
    BankLoanOptimizer.calculate_net_returns twoTypeState = some [0.058, 0.083] ∧
    twoTypeState.loan_types.length = 2 ∧
    bankVar twoTypeState.loan_types.length 3 = none ∧
    BankLoanOptimizer.build_model twoTypeState = none ∧
    (∀ x0 x1 : ℚ, 0 ≤ x0 → 0 ≤ x1 → x0 + x1 ≤ 1000000 →
      0.058 * x0 + 0.083 * x1 ≤ 83000) ∧
    0.058 * (0 : ℚ) + 0.083 * 1000000 = 83000 := by
  refine ⟨?_, rfl, rfl, rfl, ?_, by norm_num⟩
  · simp [twoTypeState, BankLoanOptimizer.init, BankLoanOptimizer.calculate_net_returns,
      listOrDefault, optionMap, List.range_succ]
    norm_num
  · intro x0 x1 h0 h1 hsum
    nlinarith

/-- The oil optimizer configured with a non-default feedstock octane of 80
(accepted by the constructor: 80 is below every required octane and the
cracker's 98 is above). -/
def octane80State : OilRefiningState :=
  OilRefiningOptimizer.init 1500000 200000
    (some [("feedstock", 80), ("cracker", 98), ("regular", 87), ("premium", 89),
      ("super", 92)])
    none none

/-- C3: the constructor stores the configured octane numbers, but
`build_model` never reads them — the blending constraint it emits for
regular gasoline keeps the hand-derived default coefficients (-5 on
feedstock, 11 on cracker) although the claimed formula gives
80 - 87 = -7 for the configured feedstock; at the default configuration
(82/98 against 87/89/92) the claimed formula does reproduce the emitted
coefficients -5/11, -7/9, -10/6. -/
theorem C3_octane_coefficients_hardcoded :
    dictGet octane80State.octane_numbers "feedstock" = some 80 ∧
    dictGet octane80State.octane_numbers "regular" = some 87 ∧
    ((OilRefiningOptimizer.build_model octane80State).getD []).getD 5 emptyConstraint =
      { terms := [(-5, OilVar.feed "regular"), (11, OilVar.crack "regular")]
        op := CmpOp.ge, rhs := 0, label := "Octane_Regular" } ∧
    (80 : ℚ) - 87 ≠ -5 ∧
    ((82 : ℚ) - 87 = -5 ∧ (98 : ℚ) - 87 = 11 ∧ (82 : ℚ) - 89 = -7 ∧
      (98 : ℚ) - 89 = 9 ∧ (82 : ℚ) - 92 = -10 ∧ (98 : ℚ) - 92 = 6) := by
  refine ⟨rfl, rfl, rfl, by norm_num, by norm_num⟩

/-- C2: at the default five-category configuration, `build_model` linearizes
the two ratio-minimum rules with right-hand side 0 and operator ≤ — the
Home ≥ 50% of (Personal+Car+Home) rule as coefficients 0.5, 0.5, -0.5 and
the Farm+Commercial ≥ 40% of all loans rule as 0.4, 0.4, 0.4, -0.6, -0.6 —
each exactly the pattern r·Σ_T x − (1−r)·Σ_S x ≤ 0. -/
theorem C2_ratio_minimum_linearization :
    ∃ cs, BankLoanOptimizer.build_model bankDefaultState = some cs ∧
      cs.getD 2 emptyConstraint =
        { terms := [(0.4, 0), (0.4, 1), (0.4, 2), (-0.6, 3), (-0.6, 4)]
          op := CmpOp.le, rhs := 0, label := "Farm_Commercial_Minimum" } ∧
      cs.getD 3 emptyConstraint =
        { terms := [(0.5, 0), (0.5, 1), (-0.5, 2)]
          op := CmpOp.le, rhs := 0, label := "Home_Loan_Minimum" } ∧
      (∀ v : Nat → ℚ, (cs.getD 2 emptyConstraint).holds v ↔
        0.4 * (v 0 + v 1 + v 2) - (1 - 0.4) * (v 3 + v 4) ≤ 0) ∧
      (∀ v : Nat → ℚ, (cs.getD 3 emptyConstraint).holds v ↔
        0.5 * (v 0 + v 1) - (1 - 0.5) * v 2 ≤ 0) := by
  refine ⟨_, rfl, rfl, rfl, ?_, ?_⟩
  · intro v
    simp [Constraint.holds, CmpOp.sat, evalTerms]
    constructor <;> intro h <;> linarith
  · intro v
    simp [Constraint.holds, CmpOp.sat, evalTerms]
    constructor <;> intro h <;> linarith

/-- Extracted variable values that violate the budget constraint of the
default bank loan model by 1,000,000. -/
def bankViolationVals : List ℚ := [13000000, 0, 0, 0, 0]

/-- C4 counterexample: the default model's first constraint is the 12M
budget; the values `bankViolationVals` violate it (beyond the 1e-6
tolerance, as `calculate_constraint_violations` itself reports), yet
`solve`'s Optimal-branch extraction returns them unchanged with no error —
no constraint is recomputed or checked after extraction. -/
theorem C4_counterexample :
    ((BankLoanOptimizer.build_model bankDefaultState).getD []).getD 0 emptyConstraint =
      { terms := [(1, 0), (1, 1), (1, 2), (1, 3), (1, 4)]
        op := CmpOp.le, rhs := 12000000, label := "Total_Funds_Constraint" } ∧
    ¬ (((BankLoanOptimizer.build_model bankDefaultState).getD []).getD 0
        emptyConstraint).holds (fun i => bankViolationVals.getD i 0) ∧
    calculate_constraint_violations 13000000 12000000 "<=" (1 / 1000000) =
      some (false, 1000000) ∧
    (BankLoanOptimizer.solve_extract "Optimal" bankViolationVals 338000).error = none ∧
    (BankLoanOptimizer.solve_extract "Optimal" bankViolationVals 338000).allocations =
      some bankViolationVals := by
  have hcon : ((BankLoanOptimizer.build_model bankDefaultState).getD []).getD 0
      emptyConstraint =
      { terms := [(1, 0), (1, 1), (1, 2), (1, 3), (1, 4)]
        op := CmpOp.le, rhs := 12000000, label := "Total_Funds_Constraint" } := rfl
  refine ⟨hcon, ?_, ?_, rfl, rfl⟩
  · rw [hcon]
    simp only [Constraint.holds, CmpOp.sat, evalTerms, bankViolationVals,
      List.map_cons, List.map_nil, List.sum_cons, List.sum_nil,
      List.getD_cons_zero, List.getD_cons_succ]
    norm_num
  · unfold calculate_constraint_violations
    rw [if_pos rfl]
    have h1 : decide ((13000000 : ℚ) ≤ 12000000 + 1 / 1000000) = false := by
      rw [decide_eq_false_iff_not]
      norm_num
    have h2 : max (0 : ℚ) (13000000 - 12000000) = 1000000 := by
      rw [show (13000000 : ℚ) - 12000000 = 1000000 by norm_num]
      exact max_eq_right (by norm_num)
    rw [h1, h2]

/-- C4 amended: no optimizer's solve recomputes any constraint after
extracting an Optimal solution — the extraction returns the engine's values
unconditionally with no error field, whatever they are; the absolute-1e-6
tolerance check exists only in the `calculate_constraint_violations`
utility, which no solve invokes. -/
theorem C4_amended (vals pvals ivals : List ℚ) (obj : ℚ)
    (s : ProductionInventoryState) (fvals cvals : String → ℚ) :
    (BankLoanOptimizer.solve_extract "Optimal" vals obj).error = none ∧
    (BankLoanOptimizer.solve_extract "Optimal" vals obj).allocations = some vals ∧
    (ProductionInventoryOptimizer.solve_extract s "Optimal" pvals ivals obj).error = none ∧
    (ProductionInventoryOptimizer.solve_extract s "Optimal" pvals ivals obj).production_schedule =
      some pvals ∧
    (OilRefiningOptimizer.solve_extract "Optimal" fvals cvals obj).error = none :=
  ⟨rfl, rfl, rfl, rfl, rfl⟩

/-- The zero-capital optimizer state of C8. -/
def bankZeroState : BankLoanState := BankLoanOptimizer.init 0 none none none

/-- The constraint set of the zero-capital default model, computed. -/
theorem bankZero_constraints :
    BankLoanOptimizer.build_model bankZeroState = some
      [{ terms := [(1, 0), (1, 1), (1, 2), (1, 3), (1, 4)]
         op := CmpOp.le, rhs := 0, label := "Total_Funds_Constraint" },
       { terms := [(1, 0), (1, 1), (1, 2), (1, 3), (1, 4)]
         op := CmpOp.ge, rhs := 0, label := "Minimum_Allocation" },
       { terms := [(0.4, 0), (0.4, 1), (0.4, 2), (-0.6, 3), (-0.6, 4)]
         op := CmpOp.le, rhs := 0, label := "Farm_Commercial_Minimum" },
       { terms := [(0.5, 0), (0.5, 1), (-0.5, 2)]
         op := CmpOp.le, rhs := 0, label := "Home_Loan_Minimum" },
       { terms := [(0.10 - 0.04, 0), (0.07 - 0.04, 1), (0.03 - 0.04, 2),
           (0.05 - 0.04, 3), (0.02 - 0.04, 4)]
         op := CmpOp.le, rhs := 0, label := "Bad_Debt_Limit" }] := rfl

/-- C8: with total capital 0, any assignment that satisfies the built
model's constraints and the variables' lower bounds is zero everywhere, so
the optimum allocates 0 to every category; the extracted total is 0 and the
objective evaluates to net return 0; and for every engine objective value
the extraction computes roi_percentage = 0 through the guarded branch
(`total_allocated > 0` is false, so no division happens). -/
theorem C8_zero_capital (v : Nat → ℚ)
    (hc : ∀ c ∈ (BankLoanOptimizer.build_model bankZeroState).getD [], c.holds v)
    (hb : ∀ p ∈ BankLoanOptimizer.variables bankZeroState, p.2 ≤ v p.1) :
    (∀ i, i < 5 → v i = 0) ∧
    ((List.range 5).map v).sum = 0 ∧
    evalTerms v ((BankLoanOptimizer.objective bankZeroState).getD []) = 0 ∧
    (∀ obj : ℚ,
      (BankLoanOptimizer.solve_extract "Optimal" ((List.range 5).map v) obj).total_allocated =
        some 0 ∧
      (BankLoanOptimizer.solve_extract "Optimal" ((List.range 5).map v) obj).roi_percentage =
        some 0) := by
  rw [bankZero_constraints] at hc
  simp only [Option.getD_some] at hc
  have h1 := hc
    { terms := [(1, 0), (1, 1), (1, 2), (1, 3), (1, 4)]
      op := CmpOp.le, rhs := 0, label := "Total_Funds_Constraint" }
    (List.mem_cons_self _ _)
  simp only [Constraint.holds, CmpOp.sat, evalTerms, List.map_cons, List.map_nil,
    List.sum_cons, List.sum_nil] at h1
  have hb0 : (0 : ℚ) ≤ v 0 := by
    simpa using hb (0, 0) (by
      simp [BankLoanOptimizer.variables, bankZeroState, BankLoanOptimizer.init,
        listOrDefault, List.range_succ])
  have hb1 : (0 : ℚ) ≤ v 1 := by
    simpa using hb (1, 0) (by
      simp [BankLoanOptimizer.variables, bankZeroState, BankLoanOptimizer.init,
        listOrDefault, List.range_succ])
  have hb2 : (0 : ℚ) ≤ v 2 := by
    simpa using hb (2, 0) (by
      simp [BankLoanOptimizer.variables, bankZeroState, BankLoanOptimizer.init,
        listOrDefault, List.range_succ])
  have hb3 : (0 : ℚ) ≤ v 3 := by
    simpa using hb (3, 0) (by
      simp [BankLoanOptimizer.variables, bankZeroState, BankLoanOptimizer.init,
        listOrDefault, List.range_succ])
  have hb4 : (0 : ℚ) ≤ v 4 := by
    simpa using hb (4, 0) (by
      simp [BankLoanOptimizer.variables, bankZeroState, BankLoanOptimizer.init,
        listOrDefault, List.range_succ])
  have h0 : v 0 = 0 := by linarith
  have h1a : v 1 = 0 := by linarith
  have h2a : v 2 = 0 := by linarith
  have h3a : v 3 = 0 := by linarith
  have h4a : v 4 = 0 := by linarith
  have hsum : ((List.range 5).map v).sum = 0 := by
    simp [List.range_succ, h0, h1a, h2a, h3a, h4a]
  refine ⟨?_, hsum, ?_, ?_⟩
  · intro i hi
    interval_cases i <;> assumption
  · have hobj : (BankLoanOptimizer.objective bankZeroState).getD [] =
        [(0.14 * (1 - 0.10) - 0.10, 0), (0.13 * (1 - 0.07) - 0.07, 1),
         (0.12 * (1 - 0.03) - 0.03, 2), (0.125 * (1 - 0.05) - 0.05, 3),
         (0.10 * (1 - 0.02) - 0.02, 4)] := rfl
    rw [hobj]
    simp [evalTerms, h0, h1a, h2a, h3a, h4a]
  · intro obj
    unfold BankLoanOptimizer.solve_extract
    rw [if_pos rfl]
    constructor
    · simpa using hsum
    · simp only [hsum]
      rw [if_neg (lt_irrefl 0)]
      norm_num

/-- Witness for C8 at the all-zero assignment. -/
theorem C8_witness :
    (BankLoanOptimizer.solve_extract "Optimal"
      ((List.range 5).map (fun _ => (0 : ℚ))) 0).roi_percentage = some 0 ∧
    evalTerms (fun _ => (0 : ℚ)) ((BankLoanOptimizer.objective bankZeroState).getD []) = 0 := by
  have h := C8_zero_capital (fun _ => 0)
    (by
      intro c hcmem
      rw [bankZero_constraints] at hcmem
      simp only [Option.getD_some, List.mem_cons, List.not_mem_nil, or_false] at hcmem
      rcases hcmem with h | h | h | h | h <;> subst h <;>
        simp [Constraint.holds, CmpOp.sat, evalTerms])
    (by
      intro p hp
      simp only [BankLoanOptimizer.variables] at hp
      obtain ⟨i, _, rfl⟩ := List.mem_map.1 hp
      exact le_refl 0)
  exact ⟨(h.2.2.2 0).2, h.2.2.1⟩

/-- Lookup `l.get? i` succeeds with the `getD` value when the index is in range. -/
theorem list_get?_getD {α : Type} :
    ∀ (l : List α) (i : Nat) (d : α), i < l.length → l.get? i = some (l.getD i d)
  | [], i, _, h => absurd h (by simp)
  | _ :: _, 0, _, _ => rfl
  | _ :: as, i + 1, d, h => list_get?_getD as i d (Nat.lt_of_succ_lt_succ h)

/-- The `getD` value agrees with a successful `get?`. -/
theorem list_getD_of_get? {α : Type} :
    ∀ (l : List α) (i : Nat) (d a : α), l.get? i = some a → l.getD i d = a
  | [], _, _, _, h => Option.noConfusion h
  | _ :: _, 0, d, a, h => by
    simp only [List.getD_cons_zero]
    exact Option.some.inj h
  | _ :: as, i + 1, d, a, h => by
    simp only [List.getD_cons_succ]
    exact list_getD_of_get? as i d a h

/-- Unrolling `balanceLoop`: when every demand index it touches is in
range, the loop succeeds and its j-th constraint is the balance equation of
loop index `i + j` — inventory of the immediately preceding period plus
production minus ending inventory equals that period's demand. -/
theorem balanceLoop_spec (demands : List ℚ) :
    ∀ (count i : Nat), (∀ j, j < count → i + j < demands.length) →
      ∃ l, balanceLoop demands count i = some l ∧ l.length = count ∧
        ∀ j, j < count → l.get? j = some
          { terms := [((1 : ℚ), PIVar.inventory (i + j - 1)), (1, PIVar.produce (i + j)),
              (-1, PIVar.inventory (i + j))]
            op := CmpOp.eq, rhs := demands.getD (i + j) 0
            label := "Period_" ++ toString (i + j + 1) ++ "_Balance" } := by
  intro count
  induction count with
  | zero =>
    intro i _
    exact ⟨[], rfl, rfl, fun j hj => absurd hj (Nat.not_lt_zero j)⟩
  | succ k ih =>
    intro i hvalid
    have hi : i < demands.length := by
      have := hvalid 0 (Nat.succ_pos k)
      simpa using this
    obtain ⟨l, hl, hlen, hspec⟩ := ih (i + 1) (fun j hj => by
      have := hvalid (j + 1) (Nat.succ_lt_succ hj)
      omega)
    refine ⟨({ terms := [((1 : ℚ), PIVar.inventory (i - 1)), (1, PIVar.produce i),
                 (-1, PIVar.inventory i)],
               op := CmpOp.eq, rhs := demands.getD i 0,
               label := "Period_" ++ toString (i + 1) ++ "_Balance" } :
      Constraint PIVar) :: l, ?_, ?_, ?_⟩
    · simp only [balanceLoop, list_get?_getD demands i (0 : ℚ) hi, hl]
    · simp [hlen]
    · intro j hj
      cases j with
      | zero =>
        simp
      | succ j' =>
        have hs := hspec j' (Nat.lt_of_succ_lt_succ hj)
        have e : i + 1 + j' = i + (j' + 1) := by omega
        rw [e] at hs
        exact hs

/-- C1: for every nonempty demand list, the balance-constraint part of
`ProductionInventoryOptimizer.build_model` emits exactly n equality
constraints in period order — the first is produce_1 − inventory_1 =
demand_1 (implicit beginning inventory of zero) and the t-th (t ≥ 2)
references the immediately preceding period's inventory variable by
identity with coefficients +1/−1, holding at an assignment exactly when
inventory_(t−1) + produce_t − inventory_t equals demand_t symbolically —
and every production and inventory variable has lower bound 0. -/
theorem C1_balance_recurrence (pc : Option (List ℚ)) (sc : ℚ) (demands : List ℚ)
    (hd : demands ≠ []) :
    ∃ cs, ProductionInventoryOptimizer.balance_constraints
        (ProductionInventoryOptimizer.init pc sc (some demands)) = some cs ∧
      cs.length = demands.length ∧
      cs.get? 0 = some
        { terms := [((1 : ℚ), PIVar.produce 0), (-1, PIVar.inventory 0)]
          op := CmpOp.eq, rhs := demands.getD 0 0, label := "Period_1_Balance" } ∧
      (∀ t, 1 ≤ t → t < demands.length → cs.get? t = some
        { terms := [((1 : ℚ), PIVar.inventory (t - 1)), (1, PIVar.produce t),
            (-1, PIVar.inventory t)]
          op := CmpOp.eq, rhs := demands.getD t 0
          label := "Period_" ++ toString (t + 1) ++ "_Balance" }) ∧
      (∀ t, 1 ≤ t → t < demands.length → ∀ v : PIVar → ℚ,
        ((cs.getD t emptyConstraint).holds v ↔
          v (PIVar.inventory (t - 1)) + v (PIVar.produce t) - v (PIVar.inventory t) =
            demands.getD t 0)) ∧
      (∀ p ∈ ProductionInventoryOptimizer.production_vars
          (ProductionInventoryOptimizer.init pc sc (some demands)), p.2 = 0) ∧
      (∀ p ∈ ProductionInventoryOptimizer.inventory_vars
          (ProductionInventoryOptimizer.init pc sc (some demands)), p.2 = 0) := by
  have hne : demands.isEmpty = false := by
    cases demands with
    | nil => exact absurd rfl hd
    | cons a as => rfl
  have hstore : (ProductionInventoryOptimizer.init pc sc (some demands)).demands =
      demands := by
    simp [ProductionInventoryOptimizer.init, listOrDefault, hne]
  have hnp : (ProductionInventoryOptimizer.init pc sc (some demands)).num_periods =
      demands.length := by
    simp [ProductionInventoryOptimizer.init, listOrDefault, hne]
  have hlpos : 0 < demands.length := List.length_pos.2 hd
  obtain ⟨l, hl, hlen, hspec⟩ := balanceLoop_spec demands (demands.length - 1) 1
    (fun j hj => by omega)
  refine ⟨({ terms := [((1 : ℚ), PIVar.produce 0), (-1, PIVar.inventory 0)],
             op := CmpOp.eq, rhs := demands.getD 0 0,
             label := "Period_1_Balance" } : Constraint PIVar) :: l,
    ?_, ?_, rfl, ?_, ?_, ?_, ?_⟩
  · simp only [ProductionInventoryOptimizer.balance_constraints, hstore, hnp,
      list_get?_getD demands 0 (0 : ℚ) hlpos, hl]
  · simp only [List.length_cons, hlen]
    omega
  · intro t h1 h2
    obtain ⟨t', rfl⟩ : ∃ t', t = t' + 1 := ⟨t - 1, by omega⟩
    have hs := hspec t' (by omega)
    have e : 1 + t' = t' + 1 := by omega
    rw [e] at hs
    exact hs
  · intro t h1 h2 v
    obtain ⟨t', rfl⟩ : ∃ t', t = t' + 1 := ⟨t - 1, by omega⟩
    have hs := hspec t' (by omega)
    have e : 1 + t' = t' + 1 := by omega
    rw [e] at hs
    rw [List.getD_cons_succ, list_getD_of_get? l t' emptyConstraint _ hs]
    simp only [Constraint.holds, CmpOp.sat, evalTerms, List.map_cons, List.map_nil,
      List.sum_cons, List.sum_nil]
    constructor <;> intro h <;> linarith
  · intro p hp
    obtain ⟨i, _, rfl⟩ := List.mem_map.1 hp
    rfl
  · intro p hp
    obtain ⟨i, _, rfl⟩ := List.mem_map.1 hp
    rfl

/-- Witness for C1 at the concrete demand list [100, 250]. -/
theorem C1_witness :
    ([100, 250] : List ℚ) ≠ [] ∧
    ∃ cs, ProductionInventoryOptimizer.balance_constraints
        (ProductionInventoryOptimizer.init none 8 (some [100, 250])) = some cs ∧
      cs.length = 2 ∧
      cs.get? 1 = some
        { terms := [((1 : ℚ), PIVar.inventory 0), (1, PIVar.produce 1),
            (-1, PIVar.inventory 1)]
          op := CmpOp.eq, rhs := 250, label := "Period_2_Balance" } := by
  have h := C1_balance_recurrence none 8 [100, 250] (List.cons_ne_nil _ _)
  obtain ⟨cs, hcs, hlen, _, hbal, _⟩ := h
  refine ⟨List.cons_ne_nil _ _, cs, hcs, by simpa using hlen, ?_⟩
  have := hbal 1 le_rfl (by norm_num)
  simpa using this
